import Mathlib

/-!
Shallow embedding of the progression & settlement engine of the RPG todo bot
(src/main.py, src/handlers.py, src/database.py).

Modelling conventions:
* Machine integers of the Python code are modelled as `Nat` (all the stats in
  question — level, xp, hp, points, streak, costs — are kept non-negative by
  the code: `max(0, ...)` clamps become `Nat` truncated subtraction).
* Calendar dates (ISO `YYYY-MM-DD` strings in the code) are modelled as `Int`
  day numbers: comparison of valid ISO date strings is order-isomorphic to
  comparison of day numbers, and `today - timedelta(days=7)` becomes
  `today - 7`.
* The float completion rate `done / total * 100` is modelled exactly in `ℚ`.
* The float multiplier `int(x * 1.5)` in `_calc_rewards` is modelled as
  `3 * x / 2` in `Nat`: for every value of the reward table, `x * 1.5` is
  exact in binary floating point and `int` truncates toward zero, which on
  these non-negative values is `Nat` division by 2 of `3 * x`.
* Database rows are records; the per-day task list handed to the settlement
  is `get_tasks_by_date`, which orders by `id` (creation order), so a plain
  `List Task` in that order.
-/

namespace RpgTodo

/-- A row of the `users` table (database.py); fields written by the
progression logic.  `last_perfect_date` is a date, modelled as a day
number. -/
structure User where
  username : String
  level : Nat
  xp : Nat
  hp : Nat
  points : Nat
  shield_active : Bool
  pepper_mode : Bool
  pepper_streak : Nat
  last_perfect_date : Int
  deriving Repr, DecidableEq

/-- A row of the `tasks` table (database.py). -/
structure Task where
  id : Nat
  title : String
  task_type : String
  completed : Bool
  created_date : Int
  penalized : Bool
  deriving Repr, DecidableEq

/-- A row of the `rewards` table (database.py). -/
structure Reward where
  id : Nat
  title : String
  cost : Nat
  claimed : Bool
  deriving Repr, DecidableEq

/-- Embeds `_calc_rewards` (handlers.py): base table
`{"focus": (50,20,0), "important": (20,10,0), "wish": (5,2,5)}` with default
`(0,0,0)`; with pepper active, xp and points are `int(x * 1.5)` (truncation),
heal untouched. -/
def calc_rewards (task_type : String) (pepper : Bool) : Nat × Nat × Nat :=
  let base :=
    if task_type = "focus" then (50, 20, 0)
    else if task_type = "important" then (20, 10, 0)
    else if task_type = "wish" then (5, 2, 5)
    else (0, 0, 0)
  if pepper then (3 * base.1 / 2, 3 * base.2.1 / 2, base.2.2)
  else base

/-- The level-up loop of `task_done` / `reminder_done` (handlers.py):
`while new_xp >= new_lvl * 100: new_xp -= new_lvl * 100; new_lvl += 1`.
The Python loop diverges for `lvl = 0` (the schema guarantees `level ≥ 1`),
so the embedding guards the recursion on `0 < lvl`, which is faithful on the
whole domain where the Python code terminates. -/
def levelLoop (lvl xp : Nat) : Nat × Nat :=
  if h : 0 < lvl ∧ lvl * 100 ≤ xp then
    levelLoop (lvl + 1) (xp - lvl * 100)
  else (lvl, xp)
termination_by xp
decreasing_by
  omega

/-- Embeds `task_done` (handlers.py): re-fetch the task; if missing or already
completed, answer without touching any state; otherwise grant rewards, run
the level loop, heal capped at 100, and mark the task completed. -/
def task_done (u : User) (t : Option Task) : User × Option Task :=
  match t with
  | none => (u, none)
  | some task =>
      if task.completed then (u, some task)
      else
        let r := calc_rewards task.task_type u.pepper_mode
        let lx := levelLoop u.level (u.xp + r.1)
        ({ u with
            level := lx.1
            xp := lx.2
            hp := min 100 (u.hp + r.2.2)
            points := u.points + r.2.1 },
          some { task with completed := true })

/-- Embeds `_send_reminder` (handlers.py): re-fetch the task; if missing or already
completed, send nothing; otherwise send the reminder message.  The function
performs no writes, so the model only records whether a notification goes
out. -/
def send_reminder (t : Option Task) : Bool :=
  match t with
  | none => false
  | some task => !task.completed

/-- The `penalty_table` of `_process_evening` (main.py):
`{"focus": (20,5), "important": (10,3), "wish": (0,2)}`, default `(0,0)`. -/
def penalty_table (tt : String) : Nat × Nat :=
  if tt = "focus" then (20, 5)
  else if tt = "important" then (10, 3)
  else if tt = "wish" then (0, 2)
  else (0, 0)

/-- The penalty loop of `_process_evening` (main.py): walk the failed tasks
in creation order carrying the one-use shield flag and the running HP/points
losses; the first positive HP penalty met while the shield is up is zeroed
and the (local) shield flag drops. -/
def penaltyFold : List Task → Bool → Nat × Nat → Bool × Nat × Nat
  | [], shield, acc => (shield, acc.1, acc.2)
  | t :: rest, shield, acc =>
      let p := penalty_table t.task_type
      if shield && decide (0 < p.1) then
        penaltyFold rest false (acc.1, acc.2 + p.2)
      else
        penaltyFold rest shield (acc.1 + p.1, acc.2 + p.2)

/-- The failed-task selection of `_process_evening` (main.py):
`[t for t in tasks if not t["completed"] and not t["penalized"]]`. -/
def failedTasks (ts : List Task) : List Task :=
  ts.filter (fun t => !t.completed && !t.penalized)

/-- Embeds `mark_tasks_penalized` (database.py): `UPDATE tasks SET penalized = 1
WHERE user_id = ? AND created_date = ? AND completed = 0`, restricted to the
task list of the day. -/
def mark_tasks_penalized (ts : List Task) : List Task :=
  ts.map (fun t => if t.completed then t else { t with penalized := true })

/-- The outcome of one evening settlement for one user: the persisted user
row, the task rows of the day after `mark_tasks_penalized`, and the summary data
(`failed`, `total_hp_loss`, `total_pts_loss`) the code computes. -/
structure EveningResult where
  user : User
  tasks : List Task
  failed : List Task
  total_hp_loss : Nat
  total_pts_loss : Nat
  deriving Repr, DecidableEq

/-- Embeds `_process_evening` (main.py) restricted to its state effect: with no
tasks for the day it returns at once (nothing is written, so the summary
fields are zero); otherwise it computes the penalties with the shield loop,
clamps hp and points at 0, persists the shield / streak / pepper updates and
marks the incomplete tasks of the day penalized. -/
def process_evening (u : User) (ts : List Task) (today : Int) : EveningResult :=
  if ts = [] then ⟨u, ts, [], 0, 0⟩
  else
    let total := ts.length
    let done := ts.countP (fun t => t.completed)
    let failed := failedTasks ts
    let res := penaltyFold failed u.shield_active (0, 0)
    let total_hp_loss := res.2.1
    let total_pts_loss := res.2.2
    let new_hp := u.hp - total_hp_loss
    let new_pts := u.points - total_pts_loss
    let shield_now :=
      if u.shield_active && decide (0 < total_hp_loss) then false
      else u.shield_active
    let new_streak := if done = total then u.pepper_streak + 1 else 0
    let new_pepper :=
      if done = total then
        (if 3 ≤ u.pepper_streak + 1 then true else u.pepper_mode)
      else false
    { user :=
        { u with
            hp := new_hp
            points := new_pts
            shield_active := shield_now
            pepper_mode := new_pepper
            pepper_streak := new_streak
            last_perfect_date := if done = total then today else u.last_perfect_date }
      tasks := mark_tasks_penalized ts
      failed := failed
      total_hp_loss := total_hp_loss
      total_pts_loss := total_pts_loss }

/-- Embeds `shop_buy` (handlers.py): the price table maps shield to 50 and
pepper to 100, any other item to 0; reject (`none`, no write at all) when `points < price`, otherwise
debit and set the flag of the item.  An unknown item falls through both branches:
points are left as they are and nothing is written. -/
def shop_buy (u : User) (item : String) : Option User :=
  let price := if item = "shield" then 50 else if item = "pepper" then 100 else 0
  if u.points < price then none
  else if item = "shield" then
    some { u with points := u.points - price, shield_active := true }
  else if item = "pepper" then
    some { u with points := u.points - price, pepper_mode := true }
  else some u

/-- The date window test of `get_week_completion_rate` (database.py):
`created_date >= today - 7 days AND created_date <= today`. -/
def inWeekWindow (today : Int) (t : Task) : Bool :=
  decide (today - 7 ≤ t.created_date) && decide (t.created_date ≤ today)

/-- Embeds `get_week_completion_rate` (database.py): over the tasks of the
user with
`created_date` between `today - 7 days` and `today` inclusive, return
`done / total * 100`, or `0` when the window holds no task. -/
def get_week_completion_rate (ts : List Task) (today : Int) : ℚ :=
  let window := ts.filter (inWeekWindow today)
  let total := window.length
  let done := (window.filter (fun t => t.completed)).length
  if 0 < total then (done : ℚ) / (total : ℚ) * 100 else 0

/-- Written from the claim wording, for comparison with the source: the rate
over the trailing 7 days inclusive of today (`today - 6 .. today`), 0 when
that window holds no task. -/
def weeklyRateClaim (ts : List Task) (today : Int) : ℚ :=
  let window := ts.filter
    (fun t => decide (today - 6 ≤ t.created_date) && decide (t.created_date ≤ today))
  if window.length = 0 then 0
  else 100 * ((window.filter (fun t => t.completed)).length : ℚ) / (window.length : ℚ)

/-- The amended window, written from the amended claim wording: the trailing
8 calendar days `today - 7 .. today` inclusive, counted over the whole task
list with one conjunctive predicate. -/
def weeklyRate8 (ts : List Task) (today : Int) : ℚ :=
  let total := ts.countP
    (fun t => decide (today - 7 ≤ t.created_date) && decide (t.created_date ≤ today))
  let done := ts.countP
    (fun t => t.completed
      && (decide (today - 7 ≤ t.created_date) && decide (t.created_date ≤ today)))
  if total = 0 then 0 else 100 * (done : ℚ) / (total : ℚ)

/-- The claim gate of `show_rewards` (handlers.py):
`is_sun = today.weekday() == 6; can_claim = is_sun and rate > 80`.
`weekday` is the Python `date.weekday()` value (Monday = 0, Sunday = 6). -/
def can_claim (weekday : Nat) (rate : ℚ) : Bool :=
  (weekday == 6) && decide ((80 : ℚ) < rate)

/-- Outcome of `reward_claim` (handlers.py). -/
inductive ClaimOutcome where
  | notFound
  | notEligible
  | insufficientFunds
  | ok (user : User) (reward : Reward)
  deriving Repr, DecidableEq

/-- Embeds `reward_claim` (handlers.py): re-fetch the reward (missing ⇒ no-op),
re-check the Sunday/rate gate (`if not is_sun or rate <= 80` ⇒ rejected with
the conditions reason), then the funds (`points < cost` ⇒ rejected with the
currency reason), then debit the cost and mark the reward claimed. -/
def reward_claim (u : User) (r : Option Reward) (weekday : Nat) (rate : ℚ) :
    ClaimOutcome :=
  match r with
  | none => .notFound
  | some reward =>
      if !(weekday == 6) || decide (rate ≤ (80 : ℚ)) then .notEligible
      else if u.points < reward.cost then .insufficientFunds
      else .ok { u with points := u.points - reward.cost }
        { reward with claimed := true }

/-! ## Helper lemmas -/

/-- Marking leaves no task both incomplete and unpenalized. -/
theorem failedTasks_mark (ts : List Task) :
    failedTasks (mark_tasks_penalized ts) = [] := by
  induction ts with
  | nil => rfl
  | cons t rest ih =>
      by_cases h : t.completed = true <;>
        simp [failedTasks, mark_tasks_penalized, h, List.filter] at ih ⊢ <;>
        simpa [failedTasks, mark_tasks_penalized] using ih

/-- Marking the incomplete tasks of the day twice is the same as once. -/
theorem mark_tasks_penalized_idem (ts : List Task) :
    mark_tasks_penalized (mark_tasks_penalized ts) = mark_tasks_penalized ts := by
  induction ts with
  | nil => rfl
  | cons t rest ih =>
      by_cases h : t.completed = true <;>
        simp [mark_tasks_penalized, h] at ih ⊢ <;> exact ih

/-- Marking does not change the number of tasks. -/
theorem mark_length (ts : List Task) :
    (mark_tasks_penalized ts).length = ts.length := by
  simp [mark_tasks_penalized]

/-- Marking does not change any completion flag, hence not the completed count
of the day. -/
theorem mark_countP_completed (ts : List Task) :
    (mark_tasks_penalized ts).countP (fun t => t.completed)
      = ts.countP (fun t => t.completed) := by
  induction ts with
  | nil => rfl
  | cons t rest ih =>
      by_cases h : t.completed = true <;>
        simp [mark_tasks_penalized, List.countP_cons, h] at ih ⊢ <;> omega

/-- Marking a nonempty day list yields a nonempty list. -/
theorem mark_ne_nil (ts : List Task) (h : ts ≠ []) :
    mark_tasks_penalized ts ≠ [] := by
  cases ts with
  | nil => exact absurd rfl h
  | cons t rest => by_cases hc : t.completed = true <;> simp [mark_tasks_penalized, hc]

/-- Every incomplete task is penalized after marking. -/
theorem mark_sets_penalized (ts : List Task) :
    ∀ t ∈ mark_tasks_penalized ts, t.completed = false → t.penalized = true := by
  induction ts with
  | nil => intro t ht; simp [mark_tasks_penalized] at ht
  | cons a rest ih =>
      intro t ht hc
      by_cases h : a.completed = true <;>
        simp [mark_tasks_penalized, h] at ht <;>
        rcases ht with ht | ht
      · subst ht; rw [h] at hc; cases hc
      · exact ih t (by simpa [mark_tasks_penalized] using ht) hc
      · subst ht; rfl
      · exact ih t (by simpa [mark_tasks_penalized] using ht) hc

/-- One unfolding of the level loop when the `while` guard holds. -/
theorem levelLoop_step (lvl xp : Nat) (h1 : 0 < lvl) (h2 : lvl * 100 ≤ xp) :
    levelLoop lvl xp = levelLoop (lvl + 1) (xp - lvl * 100) := by
  rw [levelLoop]
  rw [dif_pos ⟨h1, h2⟩]

/-- The level loop stops when the `while` guard fails. -/
theorem levelLoop_base (lvl xp : Nat) (h : ¬(0 < lvl ∧ lvl * 100 ≤ xp)) :
    levelLoop lvl xp = (lvl, xp) := by
  rw [levelLoop]
  rw [dif_neg h]

/-- The level loop never lowers the level and always lands strictly below the
next threshold. -/
theorem levelLoop_invariant (xp lvl : Nat) (h : 1 ≤ lvl) :
    lvl ≤ (levelLoop lvl xp).1 ∧ (levelLoop lvl xp).2 < (levelLoop lvl xp).1 * 100 := by
  induction xp using Nat.strong_induction_on generalizing lvl with
  | _ xp ih =>
    by_cases h2 : lvl * 100 ≤ xp
    · rw [levelLoop_step lvl xp h h2]
      have hlt : xp - lvl * 100 < xp := by omega
      have hrec := ih (xp - lvl * 100) hlt (lvl + 1) (by omega)
      exact ⟨le_trans (by omega) hrec.1, hrec.2⟩
    · rw [levelLoop_base lvl xp (by tauto)]
      exact ⟨le_refl _, by omega⟩

/-- Evaluates `levelLoop 1 130`: one level-up, remainder 30. -/
theorem levelLoop_one_130 : levelLoop 1 130 = (2, 30) := by
  rw [levelLoop_step 1 130 (by decide) (by decide)]
  norm_num
  rw [levelLoop_base 2 30 (by decide)]

/-- Evaluates `levelLoop 1 350`: two level-ups from a single grant. -/
theorem levelLoop_one_350 : levelLoop 1 350 = (3, 50) := by
  rw [levelLoop_step 1 350 (by decide) (by decide)]
  norm_num
  rw [levelLoop_step 2 250 (by decide) (by decide)]
  norm_num
  rw [levelLoop_base 3 50 (by decide)]

/-- A settlement run over a task list with no failed task computes zero
losses and leaves hp, points and the shield untouched. -/
theorem process_evening_no_failed (u : User) (ts : List Task) (d : Int)
    (h : failedTasks ts = []) :
    (process_evening u ts d).failed = [] ∧
    (process_evening u ts d).total_hp_loss = 0 ∧
    (process_evening u ts d).total_pts_loss = 0 ∧
    (process_evening u ts d).user.hp = u.hp ∧
    (process_evening u ts d).user.points = u.points ∧
    (process_evening u ts d).user.shield_active = u.shield_active := by
  by_cases he : ts = [] <;> simp [process_evening, he, h, penaltyFold]

/-! ## Claims -/

/-- C1 (code_bug evidence): evaluation of the settlement at the failing
input.  A user with an active shield and a single failed focus task keeps
hp 100 (the shield nullified the 20 HP penalty: without the shield the same
run ends at hp 80) yet the persisted `shield_active` stays `true`, because
line 125 of main.py clears it only when `total_hp_loss > 0`.  The claim (and
the comment `shield is one-use` in the code itself) require it to become `false`.
The two-failed-focus-tasks example of the claim does hold (hp 80, shield
cleared), so only the persistence rule diverges. -/
theorem C1_shield_persistence_eval :
    (process_evening ⟨"", 1, 0, 100, 0, true, false, 0, 0⟩
        [⟨1, "a", "focus", false, 0, false⟩] 0).user.shield_active = true ∧
    (process_evening ⟨"", 1, 0, 100, 0, true, false, 0, 0⟩
        [⟨1, "a", "focus", false, 0, false⟩] 0).user.hp = 100 ∧
    (process_evening ⟨"", 1, 0, 100, 0, false, false, 0, 0⟩
        [⟨1, "a", "focus", false, 0, false⟩] 0).user.hp = 80 ∧
    (process_evening ⟨"", 1, 0, 100, 0, true, false, 0, 0⟩
        [⟨1, "a", "focus", false, 0, false⟩,
         ⟨2, "b", "focus", false, 0, false⟩] 0).user.hp = 80 ∧
    (process_evening ⟨"", 1, 0, 100, 0, true, false, 0, 0⟩
        [⟨1, "a", "focus", false, 0, false⟩,
         ⟨2, "b", "focus", false, 0, false⟩] 0).user.shield_active = false := by
  decide

/-- C6: the completion reward function realizes the fixed base table on all
three categories, and with pepper active xp and points are multiplied by 1.5
and truncated while heal is unaffected; in particular focus with pepper
yields xp 75, points 30, heal 0. -/
theorem C6_reward_table :
    calc_rewards "focus" false = (50, 20, 0) ∧
    calc_rewards "important" false = (20, 10, 0) ∧
    calc_rewards "wish" false = (5, 2, 5) ∧
    calc_rewards "focus" true = (75, 30, 0) ∧
    calc_rewards "important" true = (30, 15, 0) ∧
    calc_rewards "wish" true = (7, 3, 5) := by
  decide

/-- C10: the evening settlement writes only hp, points, shield_active,
pepper_mode, pepper_streak and last_perfect_date — level, xp (and the
username) are identical before and after every settlement run. -/
theorem C10_settlement_frame (u : User) (ts : List Task) (d : Int) :
    (process_evening u ts d).user.level = u.level ∧
    (process_evening u ts d).user.xp = u.xp ∧
    (process_evening u ts d).user.username = u.username := by
  by_cases h : ts = [] <;> simp [process_evening, h]

/-- The worked leveling example: level 1, xp 80, completing a focus task
(xp 50, no pepper) ends at level 2, xp 30, points 20, hp unchanged. -/
theorem task_done_leveling_example :
    task_done ⟨"", 1, 80, 100, 0, false, false, 0, 0⟩
        (some ⟨1, "a", "focus", false, 0, false⟩)
      = (⟨"", 2, 30, 100, 20, false, false, 0, 0⟩,
         some ⟨1, "a", "focus", true, 0, false⟩) := by
  simp only [task_done, calc_rewards]
  norm_num [levelLoop_one_130]

/-- C7: for any user at level ≥ 1 and any xp value reached after a grant
(xp is a `Nat`, so `0 ≤ xp` throughout), the level loop ends with
`xp' < level' * 100` and `level' ≥ level`; the same holds for the user
written by `task_done` on an incomplete task; a user at level 1 with xp 80
getting the 50-xp focus grant ends at level 2 with xp 30; and a single
grant may produce several level-ups (`levelLoop 1 350 = (3, 50)`). -/
theorem C7_leveling_invariant :
    (∀ lvl xp : Nat, 1 ≤ lvl →
      lvl ≤ (levelLoop lvl xp).1 ∧
      (levelLoop lvl xp).2 < (levelLoop lvl xp).1 * 100) ∧
    (∀ (u : User) (t : Task), 1 ≤ u.level → t.completed = false →
      u.level ≤ (task_done u (some t)).1.level ∧
      (task_done u (some t)).1.xp < (task_done u (some t)).1.level * 100) ∧
    task_done ⟨"", 1, 80, 100, 0, false, false, 0, 0⟩
        (some ⟨1, "a", "focus", false, 0, false⟩)
      = (⟨"", 2, 30, 100, 20, false, false, 0, 0⟩,
         some ⟨1, "a", "focus", true, 0, false⟩) ∧
    levelLoop 1 350 = (3, 50) := by
  refine ⟨fun lvl xp h => levelLoop_invariant xp lvl h, ?_,
    task_done_leveling_example, levelLoop_one_350⟩
  intro u t hl hc
  have := levelLoop_invariant (u.xp + (calc_rewards t.task_type u.pepper_mode).1)
    u.level hl
  simp [task_done, hc]
  exact this

/-- C7 witness: the leveling invariant applied at level 1, xp 130. -/
theorem C7_leveling_invariant_witness :
    (1 : Nat) ≤ 1 ∧
    (1 ≤ (levelLoop 1 130).1 ∧ (levelLoop 1 130).2 < (levelLoop 1 130).1 * 100) :=
  ⟨by decide, C7_leveling_invariant.1 1 130 (by decide)⟩

/-- C5: on a day with at least one task, the settlement increments the
streak and turns pepper mode on exactly when the new streak reaches 3
(keeping its prior value below 3) if every task is completed, and otherwise
zeroes the streak and forces pepper mode off unconditionally. -/
theorem C5_streak_update (u : User) (ts : List Task) (d : Int) (h : ts ≠ []) :
    (ts.countP (fun t => t.completed) = ts.length →
      (process_evening u ts d).user.pepper_streak = u.pepper_streak + 1 ∧
      (process_evening u ts d).user.pepper_mode
        = (if 3 ≤ u.pepper_streak + 1 then true else u.pepper_mode)) ∧
    (ts.countP (fun t => t.completed) ≠ ts.length →
      (process_evening u ts d).user.pepper_streak = 0 ∧
      (process_evening u ts d).user.pepper_mode = false) := by
  constructor
  · intro hd
    simp [process_evening, h, hd]
  · intro hd
    simp [process_evening, h, hd]

/-- C5 witness: a perfect one-task day on a streak of 2 flips pepper mode
on; a failed one-task day zeroes both. -/
theorem C5_streak_update_witness :
    ([(⟨1, "a", "focus", true, 0, false⟩ : Task)] ≠ ([] : List Task)) ∧
    ((List.countP (fun t => t.completed) [(⟨1, "a", "focus", true, 0, false⟩ : Task)]
        = List.length [(⟨1, "a", "focus", true, 0, false⟩ : Task)] →
      (process_evening ⟨"", 1, 0, 100, 0, false, false, 2, 0⟩
          [⟨1, "a", "focus", true, 0, false⟩] 0).user.pepper_streak = 2 + 1 ∧
      (process_evening ⟨"", 1, 0, 100, 0, false, false, 2, 0⟩
          [⟨1, "a", "focus", true, 0, false⟩] 0).user.pepper_mode
        = (if 3 ≤ 2 + 1 then true else false)) ∧
    (List.countP (fun t => t.completed) [(⟨1, "a", "focus", true, 0, false⟩ : Task)]
        ≠ List.length [(⟨1, "a", "focus", true, 0, false⟩ : Task)] →
      (process_evening ⟨"", 1, 0, 100, 0, false, false, 2, 0⟩
          [⟨1, "a", "focus", true, 0, false⟩] 0).user.pepper_streak = 0 ∧
      (process_evening ⟨"", 1, 0, 100, 0, false, false, 2, 0⟩
          [⟨1, "a", "focus", true, 0, false⟩] 0).user.pepper_mode = false)) :=
  ⟨by decide,
   C5_streak_update ⟨"", 1, 0, 100, 0, false, false, 2, 0⟩
     [⟨1, "a", "focus", true, 0, false⟩] 0 (by decide)⟩

/-- C4: after a settlement run every still-incomplete task of the day is
penalized, so the failed-task selection of a second run for the same date is
empty, the second run computes zero HP and points losses and leaves hp and
points unchanged. -/
theorem C4_settlement_no_double_penalty (u : User) (ts : List Task) (d : Int) :
    (∀ t ∈ (process_evening u ts d).tasks, t.completed = false → t.penalized = true) ∧
    failedTasks (process_evening u ts d).tasks = [] ∧
    (process_evening (process_evening u ts d).user
        (process_evening u ts d).tasks d).failed = [] ∧
    (process_evening (process_evening u ts d).user
        (process_evening u ts d).tasks d).total_hp_loss = 0 ∧
    (process_evening (process_evening u ts d).user
        (process_evening u ts d).tasks d).total_pts_loss = 0 ∧
    (process_evening (process_evening u ts d).user
        (process_evening u ts d).tasks d).user.hp
      = (process_evening u ts d).user.hp ∧
    (process_evening (process_evening u ts d).user
        (process_evening u ts d).tasks d).user.points
      = (process_evening u ts d).user.points := by
  by_cases h : ts = []
  · subst h
    simp [process_evening, failedTasks]
  · have htasks : (process_evening u ts d).tasks = mark_tasks_penalized ts := by
      simp [process_evening, h]
    rw [htasks]
    have hfl := failedTasks_mark ts
    have hrest := process_evening_no_failed (process_evening u ts d).user
      (mark_tasks_penalized ts) d hfl
    exact ⟨mark_sets_penalized ts, hfl, hrest.1, hrest.2.1, hrest.2.2.1,
      hrest.2.2.2.1, hrest.2.2.2.2.1⟩

/-- C4 witness: the double settlement at a concrete one-failed-task day. -/
theorem C4_settlement_no_double_penalty_witness :
    (∀ t ∈ (process_evening ⟨"", 1, 0, 100, 50, false, false, 0, 0⟩
        [⟨1, "a", "focus", false, 0, false⟩] 0).tasks,
      t.completed = false → t.penalized = true) ∧
    failedTasks (process_evening ⟨"", 1, 0, 100, 50, false, false, 0, 0⟩
        [⟨1, "a", "focus", false, 0, false⟩] 0).tasks = [] ∧
    (process_evening
        (process_evening ⟨"", 1, 0, 100, 50, false, false, 0, 0⟩
          [⟨1, "a", "focus", false, 0, false⟩] 0).user
        (process_evening ⟨"", 1, 0, 100, 50, false, false, 0, 0⟩
          [⟨1, "a", "focus", false, 0, false⟩] 0).tasks 0).failed = [] ∧
    (process_evening
        (process_evening ⟨"", 1, 0, 100, 50, false, false, 0, 0⟩
          [⟨1, "a", "focus", false, 0, false⟩] 0).user
        (process_evening ⟨"", 1, 0, 100, 50, false, false, 0, 0⟩
          [⟨1, "a", "focus", false, 0, false⟩] 0).tasks 0).total_hp_loss = 0 ∧
    (process_evening
        (process_evening ⟨"", 1, 0, 100, 50, false, false, 0, 0⟩
          [⟨1, "a", "focus", false, 0, false⟩] 0).user
        (process_evening ⟨"", 1, 0, 100, 50, false, false, 0, 0⟩
          [⟨1, "a", "focus", false, 0, false⟩] 0).tasks 0).total_pts_loss = 0 ∧
    (process_evening
        (process_evening ⟨"", 1, 0, 100, 50, false, false, 0, 0⟩
          [⟨1, "a", "focus", false, 0, false⟩] 0).user
        (process_evening ⟨"", 1, 0, 100, 50, false, false, 0, 0⟩
          [⟨1, "a", "focus", false, 0, false⟩] 0).tasks 0).user.hp
      = (process_evening ⟨"", 1, 0, 100, 50, false, false, 0, 0⟩
          [⟨1, "a", "focus", false, 0, false⟩] 0).user.hp ∧
    (process_evening
        (process_evening ⟨"", 1, 0, 100, 50, false, false, 0, 0⟩
          [⟨1, "a", "focus", false, 0, false⟩] 0).user
        (process_evening ⟨"", 1, 0, 100, 50, false, false, 0, 0⟩
          [⟨1, "a", "focus", false, 0, false⟩] 0).tasks 0).user.points
      = (process_evening ⟨"", 1, 0, 100, 50, false, false, 0, 0⟩
          [⟨1, "a", "focus", false, 0, false⟩] 0).user.points :=
  C4_settlement_no_double_penalty ⟨"", 1, 0, 100, 50, false, false, 0, 0⟩
    [⟨1, "a", "focus", false, 0, false⟩] 0

/-- On a nonempty day, the task rows a settlement run leaves behind are the
marked ones. -/
theorem process_evening_tasks (u : User) (ts : List Task) (d : Int) (h : ts ≠ []) :
    (process_evening u ts d).tasks = mark_tasks_penalized ts := by
  simp [process_evening, h]

/-- The settlement never touches level, xp or the username. -/
theorem process_evening_frame (u : User) (ts : List Task) (d : Int) :
    (process_evening u ts d).user.level = u.level ∧
    (process_evening u ts d).user.xp = u.xp ∧
    (process_evening u ts d).user.username = u.username := by
  by_cases h : ts = [] <;> simp [process_evening, h]

/-- Running the settlement a second time for the same date does not change
the task rows again. -/
theorem second_run_tasks (u : User) (ts : List Task) (d : Int) :
    (process_evening (process_evening u ts d).user
        (process_evening u ts d).tasks d).tasks = (process_evening u ts d).tasks := by
  by_cases h : ts = []
  · subst h; rfl
  · rw [process_evening_tasks u ts d h,
      process_evening_tasks _ _ _ (mark_ne_nil ts h)]
    exact mark_tasks_penalized_idem ts

/-- A second settlement run for the same date preserves hp, points, shield,
level and xp. -/
theorem second_run_preserves (u : User) (ts : List Task) (d : Int) :
    (process_evening (process_evening u ts d).user
        (process_evening u ts d).tasks d).user.hp = (process_evening u ts d).user.hp ∧
    (process_evening (process_evening u ts d).user
        (process_evening u ts d).tasks d).user.points
      = (process_evening u ts d).user.points ∧
    (process_evening (process_evening u ts d).user
        (process_evening u ts d).tasks d).user.shield_active
      = (process_evening u ts d).user.shield_active ∧
    (process_evening (process_evening u ts d).user
        (process_evening u ts d).tasks d).user.level
      = (process_evening u ts d).user.level ∧
    (process_evening (process_evening u ts d).user
        (process_evening u ts d).tasks d).user.xp
      = (process_evening u ts d).user.xp := by
  by_cases h : ts = []
  · subst h; exact ⟨rfl, rfl, rfl, rfl, rfl⟩
  · rw [process_evening_tasks u ts d h]
    have hrest := process_evening_no_failed (process_evening u ts d).user
      (mark_tasks_penalized ts) d (failedTasks_mark ts)
    have hframe := process_evening_frame (process_evening u ts d).user
      (mark_tasks_penalized ts) d
    exact ⟨hrest.2.2.2.1, hrest.2.2.2.2.1, hrest.2.2.2.2.2, hframe.1, hframe.2.1⟩

/-- On a non-perfect day the second settlement run rewrites the very same
user record the first run produced. -/
theorem second_run_user_eq (u : User) (ts : List Task) (d : Int)
    (hne : ts.countP (fun x => x.completed) ≠ ts.length) :
    (process_evening (process_evening u ts d).user
        (process_evening u ts d).tasks d).user = (process_evening u ts d).user := by
  have h : ts ≠ [] := by
    intro he
    subst he
    simp at hne
  rw [process_evening_tasks u ts d h]
  have h2 : mark_tasks_penalized ts ≠ [] := mark_ne_nil ts h
  simp only [process_evening, if_neg h, if_neg h2, failedTasks_mark,
    mark_countP_completed, mark_length, penaltyFold]
  simp [hne]

/-- C2 counterexample: the daily settlement is not idempotent as claimed.
For a user whose single task of the day is completed (a perfect day), the
first run sets `pepper_streak` to 1 and a second run for the same date
increments it again to 2, so the stored fields differ between the runs. -/
theorem C2_settlement_not_idempotent :
    (process_evening
        (process_evening ⟨"", 1, 0, 100, 0, false, false, 0, 0⟩
          [⟨1, "a", "focus", true, 0, false⟩] 0).user
        (process_evening ⟨"", 1, 0, 100, 0, false, false, 0, 0⟩
          [⟨1, "a", "focus", true, 0, false⟩] 0).tasks 0).user.pepper_streak = 2 ∧
    (process_evening ⟨"", 1, 0, 100, 0, false, false, 0, 0⟩
        [⟨1, "a", "focus", true, 0, false⟩] 0).user.pepper_streak = 1 := by
  decide

/-- C2 (amended): completion and reminder firing are idempotent through the
terminal-flag rechecks — completing a completed or deleted task changes
nothing and grants nothing, a reminder for a completed or deleted task sends
nothing — and a second settlement run for the same date applies no further
penalty: hp, points, shield, level, xp and the task flags are exactly as
after the first run, and on a non-perfect day (`done < total`) the whole
user record is unchanged.  (On a perfect day the second run still increments
`pepper_streak`, see the counterexample.) -/
theorem C2_flag_recheck_idempotence (u : User) (t : Task) (ts : List Task) (d : Int) :
    (t.completed = true →
      task_done u (some t) = (u, some t) ∧ send_reminder (some t) = false) ∧
    task_done u none = (u, none) ∧
    send_reminder none = false ∧
    (process_evening (process_evening u ts d).user
        (process_evening u ts d).tasks d).tasks = (process_evening u ts d).tasks ∧
    (process_evening (process_evening u ts d).user
        (process_evening u ts d).tasks d).user.hp = (process_evening u ts d).user.hp ∧
    (process_evening (process_evening u ts d).user
        (process_evening u ts d).tasks d).user.points
      = (process_evening u ts d).user.points ∧
    (process_evening (process_evening u ts d).user
        (process_evening u ts d).tasks d).user.shield_active
      = (process_evening u ts d).user.shield_active ∧
    (process_evening (process_evening u ts d).user
        (process_evening u ts d).tasks d).user.level
      = (process_evening u ts d).user.level ∧
    (process_evening (process_evening u ts d).user
        (process_evening u ts d).tasks d).user.xp = (process_evening u ts d).user.xp ∧
    (ts.countP (fun x => x.completed) ≠ ts.length →
      (process_evening (process_evening u ts d).user
          (process_evening u ts d).tasks d).user = (process_evening u ts d).user) := by
  refine ⟨fun hc => ⟨by simp [task_done, hc], by simp [send_reminder, hc]⟩,
    rfl, rfl, second_run_tasks u ts d, ?_, ?_, ?_, ?_, ?_,
    second_run_user_eq u ts d⟩
  · exact (second_run_preserves u ts d).1
  · exact (second_run_preserves u ts d).2.1
  · exact (second_run_preserves u ts d).2.2.1
  · exact (second_run_preserves u ts d).2.2.2.1
  · exact (second_run_preserves u ts d).2.2.2.2

/-- C2 witness: the idempotence parts applied at concrete inputs —
re-completing a completed task is a no-op, and a second settlement over a
day whose single task failed rewrites the same user record. -/
theorem C2_flag_recheck_idempotence_witness :
    task_done ⟨"", 1, 0, 100, 0, false, false, 0, 0⟩
        (some ⟨1, "a", "focus", true, 0, false⟩)
      = (⟨"", 1, 0, 100, 0, false, false, 0, 0⟩,
         some ⟨1, "a", "focus", true, 0, false⟩) ∧
    (process_evening
        (process_evening ⟨"", 1, 0, 100, 0, false, false, 0, 0⟩
          [⟨2, "b", "focus", false, 0, false⟩] 0).user
        (process_evening ⟨"", 1, 0, 100, 0, false, false, 0, 0⟩
          [⟨2, "b", "focus", false, 0, false⟩] 0).tasks 0).user
      = (process_evening ⟨"", 1, 0, 100, 0, false, false, 0, 0⟩
          [⟨2, "b", "focus", false, 0, false⟩] 0).user := by
  obtain ⟨h1, -, -, -, -, -, -, -, -, hlast⟩ :=
    C2_flag_recheck_idempotence ⟨"", 1, 0, 100, 0, false, false, 0, 0⟩
      ⟨1, "a", "focus", true, 0, false⟩ [⟨2, "b", "focus", false, 0, false⟩] 0
  exact ⟨(h1 rfl).1, hlast (by decide)⟩

/-- C3 counterexample: a task created exactly 7 days before `today`
(day 3 with `today = 10`) lies outside the trailing 7 days inclusive of
today (days 4..10), so the claimed rate over that window is 0, yet the code
counts it (`created_date >= today - 7 days`) and returns 100. -/
theorem C3_week_window_counterexample :
    get_week_completion_rate [⟨1, "a", "focus", true, 3, false⟩] 10 = 100 ∧
    weeklyRateClaim [⟨1, "a", "focus", true, 3, false⟩] 10 = 0 ∧
    (100 : ℚ) ≠ 0 := by
  refine ⟨?_, ?_, by norm_num⟩
  · norm_num [get_week_completion_rate, inWeekWindow, List.filter]
  · norm_num [weeklyRateClaim, List.filter]

/-- C3 (amended): the weekly completion rate is `100 * done / total` over
exactly the tasks whose `created_date` lies in the trailing 8 calendar days
(`today - 7` through `today` inclusive), and 0 when that window is empty. -/
theorem C3_weekly_rate_window (ts : List Task) (today : Int) :
    get_week_completion_rate ts today = weeklyRate8 ts today := by
  have htotal : (ts.filter (inWeekWindow today)).length
      = ts.countP (fun t =>
          decide (today - 7 ≤ t.created_date) && decide (t.created_date ≤ today)) := by
    rw [List.countP_eq_length_filter]
    rfl
  have hdone : ((ts.filter (inWeekWindow today)).filter (fun t => t.completed)).length
      = ts.countP (fun t => t.completed
          && (decide (today - 7 ≤ t.created_date) && decide (t.created_date ≤ today))) := by
    rw [← List.countP_eq_length_filter, List.countP_filter]
    rfl
  simp only [get_week_completion_rate, weeklyRate8, htotal, hdone]
  by_cases hT : ts.countP (fun t =>
      decide (today - 7 ≤ t.created_date) && decide (t.created_date ≤ today)) = 0
  · rw [hT]
    norm_num
  · rw [if_pos (Nat.pos_of_ne_zero hT), if_neg hT]
    ring

/-- The funds gate of `reward_claim` is the negation of `can_claim`. -/
theorem reward_gate_eq (wd : Nat) (rate : ℚ) :
    (!(wd == 6) || decide (rate ≤ (80 : ℚ))) = !(can_claim wd rate) := by
  have h : decide (rate ≤ (80 : ℚ)) = !decide ((80 : ℚ) < rate) := by
    rw [← decide_not]
    simp [not_lt]
  simp [can_claim, Bool.not_and, h]

/-- C8: the reward-claim gate is true exactly on the designated weekly day
(Python `weekday() == 6`, Sunday) with a strictly-greater-than-80 weekly
rate — false on any other day regardless of the rate and false on Sunday at
rate ≤ 80 — and `reward_claim` re-checks the same two conditions plus the
funds before debiting the cost and marking the reward claimed. -/
theorem C8_claim_gating :
    (∀ (wd : Nat) (rate : ℚ), wd ≠ 6 → can_claim wd rate = false) ∧
    (∀ rate : ℚ, rate ≤ 80 → can_claim 6 rate = false) ∧
    (∀ rate : ℚ, 80 < rate → can_claim 6 rate = true) ∧
    (∀ (u : User) (r : Reward) (wd : Nat) (rate : ℚ),
      (can_claim wd rate = false →
        reward_claim u (some r) wd rate = ClaimOutcome.notEligible) ∧
      (can_claim wd rate = true → u.points < r.cost →
        reward_claim u (some r) wd rate = ClaimOutcome.insufficientFunds) ∧
      (can_claim wd rate = true → r.cost ≤ u.points →
        reward_claim u (some r) wd rate
          = ClaimOutcome.ok { u with points := u.points - r.cost }
              { r with claimed := true })) := by
  refine ⟨?_, ?_, ?_, ?_⟩
  · intro wd rate h
    simp [can_claim, h]
  · intro rate h
    simp [can_claim, not_lt.mpr h]
  · intro rate h
    simp [can_claim, h]
  · intro u r wd rate
    refine ⟨?_, ?_, ?_⟩
    · intro h
      simp [reward_claim, reward_gate_eq, h]
    · intro h hf
      simp [reward_claim, reward_gate_eq, h, hf]
    · intro h hf
      simp [reward_claim, reward_gate_eq, h, Nat.not_lt.mpr hf]

/-- C8 witness: the gate applied on a Monday, on a Sunday at exactly 80,
on a Sunday at 81, and the three claim outcomes at concrete users. -/
theorem C8_claim_gating_witness :
    ((0 : Nat) ≠ 6 ∧ can_claim 0 100 = false) ∧
    ((80 : ℚ) ≤ 80 ∧ can_claim 6 80 = false) ∧
    ((80 : ℚ) < 81 ∧ can_claim 6 81 = true) ∧
    (can_claim 6 81 = true ∧ (10 : Nat) ≤ 30 ∧
      reward_claim ⟨"", 1, 0, 100, 30, false, false, 0, 0⟩
          (some ⟨1, "r", 10, false⟩) 6 81
        = ClaimOutcome.ok ⟨"", 1, 0, 100, 20, false, false, 0, 0⟩
            ⟨1, "r", 10, true⟩) :=
  ⟨⟨by decide, C8_claim_gating.1 0 100 (by decide)⟩,
   ⟨by norm_num, C8_claim_gating.2.1 80 (by norm_num)⟩,
   ⟨by norm_num, C8_claim_gating.2.2.1 81 (by norm_num)⟩,
   ⟨C8_claim_gating.2.2.1 81 (by norm_num), by decide,
    (C8_claim_gating.2.2.2 ⟨"", 1, 0, 100, 30, false, false, 0, 0⟩
        ⟨1, "r", 10, false⟩ 6 81).2.2
      (C8_claim_gating.2.2.1 81 (by norm_num)) (by decide)⟩⟩

/-- C9: a shop purchase fails exactly when points are below the item price
(50 for the shield, 100 for the pepper potion), with no state written on
failure; on success it debits exactly the price and sets only the flag of
the item (`shield_active` for the shield, `pepper_mode` for the potion —
independent of `pepper_streak`), leaving every other field unchanged. -/
theorem C9_shop_purchase :
    (∀ u : User, u.points < 50 → shop_buy u "shield" = none) ∧
    (∀ u : User, 50 ≤ u.points →
      shop_buy u "shield"
        = some { u with points := u.points - 50, shield_active := true }) ∧
    (∀ u : User, u.points < 100 → shop_buy u "pepper" = none) ∧
    (∀ u : User, 100 ≤ u.points →
      shop_buy u "pepper"
        = some { u with points := u.points - 100, pepper_mode := true }) := by
  refine ⟨?_, ?_, ?_, ?_⟩ <;> intro u h
  · simp [shop_buy, h]
  · simp [shop_buy, Nat.not_lt.mpr h]
  · simp [shop_buy, h]
  · simp [shop_buy, Nat.not_lt.mpr h]

/-- C9 witness: a 40-point user cannot afford the shield; a 120-point user
buying the potion ends with 20 points, pepper mode on and streak  still 0. -/
theorem C9_shop_purchase_witness :
    ((40 : Nat) < 50 ∧
      shop_buy ⟨"", 1, 0, 100, 40, false, false, 0, 0⟩ "shield" = none) ∧
    ((100 : Nat) ≤ 120 ∧
      shop_buy ⟨"", 1, 0, 100, 120, false, false, 0, 0⟩ "pepper"
        = some ⟨"", 1, 0, 100, 20, false, true, 0, 0⟩) :=
  ⟨⟨by decide, C9_shop_purchase.1 ⟨"", 1, 0, 100, 40, false, false, 0, 0⟩ (by decide)⟩,
   ⟨by decide, C9_shop_purchase.2.2.2 ⟨"", 1, 0, 100, 120, false, false, 0, 0⟩ (by decide)⟩⟩

end RpgTodo
